import Mathlib

/-!
Shallow embedding of the JARVIS live-session front end: the long-term
memory service, the AR detection-token scanner, and the session manager
state machine (connect, session callbacks, playback scheduler, tool-call
dispatch, interruption handling and reconnect logic), translated from the
TypeScript source. Asynchronous browser callbacks are modelled as pure
state transformers; ambient quantities (Date.now, AudioContext.currentTime,
freshly created audio source nodes) appear as explicit parameters.
-/

/-- MemoryItem from types.ts: a persisted fact {key, value, addedAt}. -/
structure MemoryItem where
  key : String
  value : String
  addedAt : Nat
  deriving DecidableEq, Repr

/-- The localStorage slot holding the persisted fact list. none models an
absent key (getItem returned null); a stored value is already-parsed JSON.
The try/catch around JSON.parse in the source also yields [] on corrupt
data, which the typed model cannot represent. -/
abbrev MemoryStore := Option (List MemoryItem)

namespace MemoryService

/-- MemoryService.load: returns the stored list, or [] when the slot is
empty (or unreadable). -/
def load (st : MemoryStore) : List MemoryItem :=
  match st with
  | some l => l
  | none => []

/-- MemoryService.save: loads the current list, removes every entry with
the same key (m.key !== key), appends the new item with addedAt = Date.now,
stores the result and returns the new item. First component is the list
written back to storage, second is the returned item. -/
def save (st : MemoryStore) (key value : String) (nowMs : Nat) :
    List MemoryItem × MemoryItem :=
  let memories := load st
  let newItem : MemoryItem := ⟨key, value, nowMs⟩
  let filtered := memories.filter (fun m => m.key != key)
  (filtered ++ [newItem], newItem)

/-- MemoryService.getContextString: the fixed sentinel on an empty store,
otherwise one bullet line per fact joined by newlines. -/
def getContextString (st : MemoryStore) : String :=
  let memories := load st
  if memories.length = 0 then "暂无历史记忆。"
  else String.intercalate "\n"
    (memories.map (fun m => "- [记忆-" ++ m.key ++ "]: " ++ m.value))

end MemoryService

/-- AROverlayData from types.ts, minus the random id field (the source
fills it with Math.random, irrelevant to the parsed content). box is
(ymin, xmin, ymax, xmax) as parsed by parseInt. -/
structure AROverlayData where
  label : String
  box : Nat × Nat × Nat × Nat
  color : String
  timestamp : Nat
  deriving DecidableEq, Repr

/-- Maximal run of decimal digits at the head of the input (the greedy
backslash-d-plus of the regex), with the remaining characters. -/
def takeDigits : List Char → List Char × List Char
  | [] => ([], [])
  | c :: cs =>
    if c.isDigit then
      let p := takeDigits cs
      (c :: p.1, p.2)
    else ([], c :: cs)

/-- parseInt on a run of decimal digits. -/
def digitsToNat (ds : List Char) : Nat :=
  ds.foldl (fun n c => 10 * n + (c.toNat - 48)) 0

/-- One mandatory decimal number at the head of the input: the greedy
digit run must be nonempty; backtracking inside the run can never help
because the following delimiter is not a digit. -/
def matchNum (cs : List Char) : Option (Nat × List Char) :=
  match takeDigits cs with
  | ([], _) => none
  | (ds, rest) => some (digitsToNat ds, rest)

/-- Expect one literal character at the head of the input. -/
def expectChar (c : Char) : List Char → Option (List Char)
  | [] => none
  | x :: xs => if x = c then some xs else none

/-- The tail of the token grammar after the label: a colon, four decimal
numbers separated by commas, and the closing bracket. -/
def matchCoords (cs : List Char) : Option ((Nat × Nat × Nat × Nat) × List Char) :=
  (expectChar ':' cs).bind fun cs1 =>
  (matchNum cs1).bind fun p1 =>
  (expectChar ',' p1.2).bind fun cs2 =>
  (matchNum cs2).bind fun p2 =>
  (expectChar ',' p2.2).bind fun cs3 =>
  (matchNum cs3).bind fun p3 =>
  (expectChar ',' p3.2).bind fun cs4 =>
  (matchNum cs4).bind fun p4 =>
  (expectChar ']' p4.2).map fun rest =>
  ((p1.1, p2.1, p3.1, p4.1), rest)

/-- JavaScript regex dot excludes the four line terminators. -/
def isLineTerm (c : Char) : Bool :=
  c == '\n' || c == '\r' || c.toNat == 8232 || c.toNat == 8233

/-- The lazy label group of the regex: the shortest run of non-terminator
characters after which the coordinate tail matches. acc holds the label
read so far, reversed. -/
def findLabel (acc : List Char) (cs : List Char) :
    Option (List Char × (Nat × Nat × Nat × Nat) × List Char) :=
  match matchCoords cs with
  | some (box, rest) => some (acc.reverse, box, rest)
  | none =>
    match cs with
    | [] => none
    | c :: cs2 => if isLineTerm c then none else findLabel (c :: acc) cs2

/-- Attempt to match one whole detection token at the head of the input:
the literal open-bracket OBJECT colon, then the lazy label, then the
coordinate tail. Returns the overlay built as in the source (fixed accent
color, current timestamp) and the characters after the match. -/
def matchAt (nowMs : Nat) (cs : List Char) : Option (AROverlayData × List Char) :=
  match cs with
  | '[' :: 'O' :: 'B' :: 'J' :: 'E' :: 'C' :: 'T' :: ':' :: rest =>
    match findLabel [] rest with
    | some (label, box, after) =>
      some (⟨String.mk label, box, "#22d3ee", nowMs⟩, after)
    | none => none
  | _ => none

/-- Global regex scan: repeatedly find the leftmost match and continue
after it (non-overlapping matches, as regex.exec with the g flag). fuel
bounds the recursion; every step consumes at least one character, so fuel
equal to the input length gives the exact scan. -/
def scanARTokens (nowMs : Nat) : Nat → List Char → List AROverlayData
  | 0, _ => []
  | _ + 1, [] => []
  | fuel + 1, c :: cs =>
    match matchAt nowMs (c :: cs) with
    | some (o, rest) => o :: scanARTokens nowMs fuel rest
    | none => scanARTokens nowMs fuel cs

/-- parseARObjects: scans a text fragment for every non-overlapping match
of the detection-token grammar and yields one overlay per match. -/
def parseARObjects (nowMs : Nat) (text : String) : List AROverlayData :=
  scanARTokens nowMs text.length text.data

/-- A log entry as produced by addLog; the random id and the wall-clock
timestamp string of the source are omitted (they carry no session state). -/
structure LogEntry where
  source : String
  message : String
  type : String
  deriving DecidableEq, Repr

/-- One entry of toolCall.functionCalls: call id, function name, and the
argument mapping (fc.args), modelled as an association list. -/
structure FunctionCall where
  id : String
  name : String
  args : List (String × String)
  deriving DecidableEq, Repr

/-- Property access fc.args.x: the bound value, or the string rendering of
undefined when the argument is absent. -/
def getArg (args : List (String × String)) (k : String) : String :=
  match args.find? (fun p => p.1 == k) with
  | some p => p.2
  | none => "undefined"

/-- The message sent back by sendToolResponse for one function call:
functionResponses {id, name, response.result}. -/
structure ToolResponse where
  id : String
  name : String
  response : String
  deriving DecidableEq, Repr

/-- One inbound LiveServerMessage together with the ambient quantities its
handling reads: audioDuration is the duration of the decoded audio buffer
when an audio payload is present, outputClockTime is ctx.currentTime when
the scheduler runs, freshSourceId identifies the AudioBufferSourceNode the
scheduler would create, texts are the text parts, toolCalls the function
calls of msg.toolCall, interrupted the serverContent.interrupted flag and
nowMs the current Date.now. -/
structure ServerMessage where
  audioDuration : Option Rat
  outputClockTime : Rat
  freshSourceId : Nat
  texts : List String
  toolCalls : List FunctionCall
  interrupted : Bool
  nowMs : Nat
  deriving DecidableEq, Repr

/-- The mutable session state of the App component: React state plus the
refs that govern the connection lifecycle, the playback scheduler and the
persisted memory store. -/
structure SessionState where
  isConnected : Bool
  isConnecting : Bool
  isStreaming : Bool
  /-- nextStartTimeRef: the PlaybackClock, in seconds of output-context time. -/
  nextStartTime : Rat
  /-- sourcesRef: ids of the currently scheduled or playing source nodes. -/
  sources : List Nat
  arOverlays : List AROverlayData
  logs : List LogEntry
  /-- reconnectTimeoutRef: delay in milliseconds of the pending reconnect
  timer, none when no timer is outstanding. -/
  reconnectTimeout : Option Nat
  connectionAttemptId : Nat
  isUserDisconnecting : Bool
  activeAudioId : String
  activeVideoId : String
  /-- frameIntervalRef: whether the 1 Hz frame sampler timer is set. -/
  frameInterval : Bool
  audioContextOpen : Bool
  inputContextOpen : Bool
  analyserSet : Bool
  /-- whether acquired camera and microphone tracks are live. -/
  mediaActive : Bool
  store : MemoryStore
  memories : List MemoryItem
  deriving DecidableEq, Repr

/-- addLog: appends one entry to the append-only log feed. -/
def addLog (message source type : String) (s : SessionState) : SessionState :=
  { s with logs := s.logs ++ [⟨source, message, type⟩] }

/-- stopAllAudio: stops every source in sourcesRef, clears the set and
resets the playback clock. -/
def stopAllAudio (s : SessionState) : SessionState :=
  { s with sources := [], nextStartTime := 0 }

/-- cleanup: halts streaming, clears connection flags, clears the frame
sampler, stops the media tracks, closes both audio contexts and clears the
overlays. It does not touch sourcesRef or nextStartTimeRef. -/
def cleanup (s : SessionState) : SessionState :=
  { s with isStreaming := false, isConnected := false, isConnecting := false,
           frameInterval := false, mediaActive := false,
           audioContextOpen := false, inputContextOpen := false,
           arOverlays := [] }

/-- disconnect: marks the teardown as user initiated, cancels any pending
reconnect timer, performs cleanup and logs the departure. -/
def disconnect (s : SessionState) : SessionState :=
  addLog "系统脱离。" "SYSTEM" "warning"
    (cleanup { s with isUserDisconnecting := true, reconnectTimeout := none })

/-- The playback scheduling cursor: max of the PlaybackClock and the
current output clock time (the first assignment in playAudioResponse). -/
def scheduledStart (outputClockTime : Rat) (s : SessionState) : Rat :=
  max s.nextStartTime outputClockTime

/-- playAudioResponse, success path: the decoded buffer of duration dur is
scheduled to start at scheduledStart, the clock advances by the duration
and the new source joins the active set. -/
def playAudioResponse (outputClockTime dur : Rat) (srcId : Nat)
    (s : SessionState) : SessionState :=
  { s with nextStartTime := scheduledStart outputClockTime s + dur,
           sources := s.sources ++ [srcId] }

/-- startVideoStreaming: clears any previous frame-sampler timer and sets
a fresh 1 Hz one. -/
def startVideoStreaming (s : SessionState) : SessionState :=
  { s with frameInterval := true }

/-- Date.now used as the connection attempt identifier (the source comment
calls it a unique id minted to prevent race conditions). -/
def mintAttemptId (nowMs : Nat) : Nat := nowMs

/-- connect: mints the attempt id from Date.now and stores it as current,
fails fast without retry when the API key is missing, sets the connecting
flag, logs unless this is a silent reconnect, then prepares both audio
contexts and the analyser (ctxOk models the try/catch around that setup).
The ai.live.connect call itself is asynchronous; its callbacks are the
separate onopen/onmessage/onclose transformers below. -/
def connect (nowMs : Nat) (hasApiKey ctxOk : Bool)
    (audioId videoId : String) (s : SessionState) : SessionState :=
  let s0 := { s with connectionAttemptId := mintAttemptId nowMs }
  if !hasApiKey then addLog "API Key 缺失" "SYSTEM" "error" s0
  else
    let s1 := { s0 with isConnecting := true }
    let s2 := if !s1.isConnected then addLog "正在初始化加密链路..." "SYSTEM" "info" s1 else s1
    if !ctxOk then addLog "音频核心启动失败" "SYSTEM" "error" s2
    else { s2 with audioContextOpen := true, inputContextOpen := true, analyserSet := true }

/-- onopen callback of attempt attemptId: returns immediately when the
attempt is stale; otherwise logs, transitions to Live, resets the playback
clock, acquires media (mediaOk models getUserMedia success) and starts the
frame sampler; on media failure it logs a sensor fault and tears down via
disconnect. -/
def onopen (attemptId : Nat) (mediaOk : Bool) (s : SessionState) : SessionState :=
  if s.connectionAttemptId ≠ attemptId then s
  else
    let s1 := addLog "系统在线。链路稳定。" "SYSTEM" "success" s
    let s2 := { s1 with isConnected := true, isConnecting := false,
                        isStreaming := true, nextStartTime := 0 }
    if mediaOk then startVideoStreaming { s2 with mediaActive := true }
    else disconnect (addLog "传感器挂载失败" "SYSTEM" "error" s2)

/-- handleToolCalls: for each named function call, logs it, computes the
result string (a fixed table with a generic OK fallback; the memory tool
also writes the store and refreshes the memories panel) and emits exactly
one response correlated by the call id, in call order. -/
def handleToolCalls (nowMs : Nat) (calls : List FunctionCall)
    (s : SessionState) : SessionState × List ToolResponse :=
  match calls with
  | [] => (s, [])
  | fc :: rest =>
    let s1 := addLog ("调用协议: " ++ fc.name) "TOOL" "info" s
    let step :=
      if fc.name = "setReminder" then
        ("已设提醒: " ++ getArg fc.args "task", s1)
      else if fc.name = "toggleSmartHome" then
        (getArg fc.args "device" ++ " 已 " ++ getArg fc.args "action", s1)
      else if fc.name = "saveToLongTermMemory" then
        let saved := MemoryService.save s1.store (getArg fc.args "key") (getArg fc.args "value") nowMs
        ("已归档", { s1 with store := some saved.1,
                            memories := MemoryService.load (some saved.1) })
      else ("OK", s1)
    let tr := handleToolCalls nowMs rest step.2
    (tr.1, ⟨fc.id, fc.name, step.1⟩ :: tr.2)

/-- onmessage callback of attempt attemptId: returns immediately when the
attempt is stale; otherwise schedules any audio payload (guarded by the
output context and analyser existing), appends overlays parsed from every
text part, dispatches tool calls, and on the interruption flag logs the
interruption and stops all audio. -/
def onmessage (attemptId : Nat) (msg : ServerMessage) (s : SessionState) :
    SessionState × List ToolResponse :=
  if s.connectionAttemptId ≠ attemptId then (s, [])
  else
    let s1 :=
      match msg.audioDuration with
      | some dur =>
        if s.audioContextOpen && s.analyserSet then
          playAudioResponse msg.outputClockTime dur msg.freshSourceId s
        else s
      | none => s
    let s2 := msg.texts.foldl (fun st t =>
      let newOverlays := parseARObjects msg.nowMs t
      if newOverlays.length > 0 then
        { st with arOverlays := st.arOverlays ++ newOverlays }
      else st) s1
    let tr := handleToolCalls msg.nowMs msg.toolCalls s2
    let s3 :=
      if msg.interrupted then stopAllAudio (addLog "用户打断" "JARVIS" "warning" tr.1)
      else tr.1
    (s3, tr.2)

/-- onclose callback of attempt attemptId: returns immediately when the
attempt is stale. On a non-user-initiated close it logs a transient-fault
warning, halts streaming and the frame sampler, cancels any pending
reconnect timer and schedules exactly one reconnect after 1500
milliseconds. On a user-initiated close it logs normal termination and
performs cleanup. -/
def onclose (attemptId : Nat) (s : SessionState) : SessionState :=
  if s.connectionAttemptId ≠ attemptId then s
  else if !s.isUserDisconnecting then
    let s1 := addLog "链路波动，正在重新校准..." "SYSTEM" "warning" s
    { s1 with isStreaming := false, frameInterval := false,
              reconnectTimeout := some 1500 }
  else
    cleanup (addLog "会话已正常结束。" "SYSTEM" "info" s)

/-- The reconnect timer firing: when a timer is pending, the timer is
spent and connect runs with the device ids held in activeAudioIdRef and
activeVideoIdRef; with no pending timer nothing happens. The second
component reports which device selection the reconnect used, none when no
reconnect occurred. -/
def fireReconnect (nowMs : Nat) (hasApiKey ctxOk : Bool) (s : SessionState) :
    SessionState × Option (String × String) :=
  match s.reconnectTimeout with
  | none => (s, none)
  | some _ =>
    (connect nowMs hasApiKey ctxOk s.activeAudioId s.activeVideoId
       { s with reconnectTimeout := none },
     some (s.activeAudioId, s.activeVideoId))

/-- An idle initial state, before any connection attempt. -/
def idleState : SessionState :=
  { isConnected := false, isConnecting := false, isStreaming := false,
    nextStartTime := 0, sources := [], arOverlays := [], logs := [],
    reconnectTimeout := none, connectionAttemptId := 0,
    isUserDisconnecting := false, activeAudioId := "mic", activeVideoId := "cam",
    frameInterval := false, audioContextOpen := false, inputContextOpen := false,
    analyserSet := false, mediaActive := false, store := none, memories := [] }

/-- A live state with one active audio source and a nonzero playback
clock, used as concrete input for several claims. -/
def livePlayingState : SessionState :=
  { idleState with isConnected := true, isStreaming := true,
                   connectionAttemptId := 100, sources := [7],
                   nextStartTime := 5, audioContextOpen := true,
                   inputContextOpen := true, analyserSet := true,
                   mediaActive := true, frameInterval := true }

/-- A concrete inbound message carrying all payload kinds at once, used as
concrete input by several witnesses. -/
def sampleMessage : ServerMessage :=
  { audioDuration := some 2, outputClockTime := 1, freshSourceId := 9,
    texts := ["Hello [OBJECT:cup:10,20,30,40] world"],
    toolCalls := [⟨"call1", "unknownTool", []⟩],
    interrupted := true, nowMs := 777 }

/-- The state after an older connection attempt A initiated at millisecond
1700000000000. -/
def attemptAfterA : SessionState :=
  connect 1700000000000 true true "mic" "cam" idleState

/-- The state after a newer connection attempt B initiated in the same
millisecond as A. -/
def attemptAfterB : SessionState :=
  connect 1700000000000 true true "mic" "cam" attemptAfterA

/-- The store contents after saving key a, then key b, then key a again. -/
def resaveExample : List MemoryItem :=
  (MemoryService.save
    (some (MemoryService.save
      (some (MemoryService.save none "a" "va" 10).1) "b" "vb" 11).1)
    "a" "va2" 12).1

/-- The per-key uniqueness invariant of the memory store. -/
def distinctKeys (l : List MemoryItem) : Prop :=
  l.Pairwise (fun a b => a.key ≠ b.key)

instance instDecidableDistinctKeys (l : List MemoryItem) : Decidable (distinctKeys l) :=
  inferInstanceAs (Decidable (l.Pairwise fun (a b : MemoryItem) => a.key ≠ b.key))

/-- A concrete tool-call payload with an unrecognized function name. -/
def sampleCalls : List FunctionCall := [⟨"call1", "unknownTool", []⟩]

/-- C1: every asynchronous session callback (open, message, close) of a
connection attempt whose identifier differs from the current one returns
immediately: the session state is unchanged in every component and no tool
response is sent. -/
theorem stale_callbacks_ignored (attemptId : Nat) (mediaOk : Bool)
    (msg : ServerMessage) (s : SessionState)
    (h : attemptId ≠ s.connectionAttemptId) :
    onopen attemptId mediaOk s = s ∧
    onmessage attemptId msg s = (s, []) ∧
    onclose attemptId s = s := by
  have h2 : s.connectionAttemptId ≠ attemptId := fun e => h e.symm
  refine ⟨?_, ?_, ?_⟩ <;> simp [onopen, onmessage, onclose, h2]

/-- Witness for C1 at a concrete stale attempt id and live state. -/
theorem stale_callbacks_ignored_witness :
    onopen 5 true livePlayingState = livePlayingState ∧
    onmessage 5 sampleMessage livePlayingState = (livePlayingState, []) ∧
    onclose 5 livePlayingState = livePlayingState :=
  stale_callbacks_ignored 5 true sampleMessage livePlayingState (by decide)

/-- C2: the playback scheduler starts a segment at the maximum of the
PlaybackClock and the current output clock time, advances the clock by the
segment duration and registers the source; hence a second segment starts
no earlier than the first start plus the first duration, with equality
whenever the output clock does not exceed that time. -/
theorem playback_no_overlap_no_gap (s : SessionState)
    (now1 d1 now2 : Rat) (srcId : Nat) :
    (playAudioResponse now1 d1 srcId s).nextStartTime = scheduledStart now1 s + d1 ∧
    (playAudioResponse now1 d1 srcId s).sources = s.sources ++ [srcId] ∧
    scheduledStart now1 s + d1 ≤ scheduledStart now2 (playAudioResponse now1 d1 srcId s) ∧
    (now2 ≤ scheduledStart now1 s + d1 →
      scheduledStart now2 (playAudioResponse now1 d1 srcId s) = scheduledStart now1 s + d1) := by
  refine ⟨rfl, rfl, ?_, ?_⟩
  · exact le_max_left _ _
  · intro h
    exact max_eq_left h

/-- Witness for C2: two concrete segments scheduled back to back with the
output clock behind, showing gap-free continuation. -/
theorem playback_no_overlap_no_gap_witness :
    (1 : Rat) ≤ scheduledStart 0 idleState + 2 ∧
    scheduledStart 1 (playAudioResponse 0 2 3 idleState) = scheduledStart 0 idleState + 2 := by
  have hle : (1 : Rat) ≤ scheduledStart 0 idleState + 2 := by
    simp [scheduledStart, idleState]
  exact ⟨hle, (playback_no_overlap_no_gap idleState 0 2 1 3).2.2.2 hle⟩

/-- C3 counterexample: from a live state with one active source and a
nonzero playback clock, a user-initiated disconnect leaves the active
source set nonempty and the clock nonzero, contrary to the claim. -/
theorem disconnect_claim_cex :
    ¬ ((disconnect livePlayingState).sources = [] ∧
       (disconnect livePlayingState).nextStartTime = 0) := by decide

/-- C3 amended: a user-initiated disconnect cancels the reconnect timer,
halts streaming and frame sampling, stops the media tracks, closes both
audio contexts (which is what silences playback) and clears overlays, but
it leaves ActiveAudioSources and the PlaybackClock unchanged; the clock is
reset only by the next successful open or an interruption signal. -/
theorem disconnect_effects (s : SessionState) :
    (disconnect s).sources = s.sources ∧
    (disconnect s).nextStartTime = s.nextStartTime ∧
    (disconnect s).isStreaming = false ∧
    (disconnect s).isConnected = false ∧
    (disconnect s).isConnecting = false ∧
    (disconnect s).frameInterval = false ∧
    (disconnect s).mediaActive = false ∧
    (disconnect s).audioContextOpen = false ∧
    (disconnect s).inputContextOpen = false ∧
    (disconnect s).arOverlays = [] ∧
    (disconnect s).reconnectTimeout = none ∧
    (disconnect s).isUserDisconnecting = true := by
  simp [disconnect, cleanup, addLog]

/-- C4: on an interruption signal for the current attempt, the message
handler empties the active source set and resets the playback clock to
zero, whatever the number of active sources. -/
theorem interruption_resets_playback (attemptId : Nat) (msg : ServerMessage)
    (s : SessionState) (hid : attemptId = s.connectionAttemptId)
    (hint : msg.interrupted = true) :
    (onmessage attemptId msg s).1.sources = [] ∧
    (onmessage attemptId msg s).1.nextStartTime = 0 := by
  subst hid
  simp [onmessage, hint, stopAllAudio]

/-- Witness for C4 at a concrete live state with an active source. -/
theorem interruption_resets_playback_witness :
    (onmessage 100 sampleMessage livePlayingState).1.sources = [] ∧
    (onmessage 100 sampleMessage livePlayingState).1.nextStartTime = 0 :=
  interruption_resets_playback 100 sampleMessage livePlayingState
    (by decide) (by decide)

/-- C5: every named function call of a tool-call payload yields exactly
one response, in order, correlated by its call id and name; a call whose
name is outside the fixed table receives the generic OK acknowledgment. -/
theorem toolcalls_one_response_each (nowMs : Nat) (calls : List FunctionCall)
    (s : SessionState) :
    List.Forall₂ (fun fc r => r.id = fc.id ∧ r.name = fc.name ∧
        (fc.name ≠ "setReminder" → fc.name ≠ "toggleSmartHome" →
         fc.name ≠ "saveToLongTermMemory" → r.response = "OK"))
      calls (handleToolCalls nowMs calls s).2 := by
  induction calls generalizing s with
  | nil => simp [handleToolCalls]
  | cons fc rest ih =>
    simp only [handleToolCalls]
    refine List.Forall₂.cons ⟨rfl, rfl, ?_⟩ (ih _)
    intro h1 h2 h3
    simp [h1, h2, h3]

/-- Witness for C5 at a concrete payload with an unrecognized name. -/
theorem toolcalls_one_response_each_witness :
    List.Forall₂ (fun fc r => r.id = fc.id ∧ r.name = fc.name ∧
        (fc.name ≠ "setReminder" → fc.name ≠ "toggleSmartHome" →
         fc.name ≠ "saveToLongTermMemory" → r.response = "OK"))
      sampleCalls (handleToolCalls 777 sampleCalls idleState).2 :=
  toolcalls_one_response_each 777 sampleCalls idleState

/-- C6: a non-user-initiated close of the current attempt halts streaming
and frame sampling and leaves exactly one pending reconnect timer of 1500
milliseconds (overwriting any previous one, the timer field holding at
most one timer); firing it reconnects with the same stored device
selection, while a disconnect before it fires cancels the timer and firing
afterwards does nothing. -/
theorem reconnect_schedule_and_cancel (attemptId nowMs : Nat)
    (hasApiKey ctxOk : Bool) (s : SessionState)
    (hid : attemptId = s.connectionAttemptId)
    (huser : s.isUserDisconnecting = false) :
    (onclose attemptId s).reconnectTimeout = some 1500 ∧
    (onclose attemptId s).isStreaming = false ∧
    (onclose attemptId s).frameInterval = false ∧
    (fireReconnect nowMs hasApiKey ctxOk (onclose attemptId s)).2 =
      some (s.activeAudioId, s.activeVideoId) ∧
    (disconnect (onclose attemptId s)).reconnectTimeout = none ∧
    fireReconnect nowMs hasApiKey ctxOk (disconnect (onclose attemptId s)) =
      (disconnect (onclose attemptId s), none) := by
  subst hid
  simp [onclose, huser, fireReconnect, disconnect, cleanup, addLog]

/-- Witness for C6 at a concrete live state with a stale pending timer. -/
theorem reconnect_schedule_and_cancel_witness :
    (onclose 100 livePlayingState).reconnectTimeout = some 1500 ∧
    (onclose 100 livePlayingState).isStreaming = false ∧
    (onclose 100 livePlayingState).frameInterval = false ∧
    (fireReconnect 2000 true true (onclose 100 livePlayingState)).2 =
      some (livePlayingState.activeAudioId, livePlayingState.activeVideoId) ∧
    (disconnect (onclose 100 livePlayingState)).reconnectTimeout = none ∧
    fireReconnect 2000 true true (disconnect (onclose 100 livePlayingState)) =
      (disconnect (onclose 100 livePlayingState), none) :=
  reconnect_schedule_and_cancel 100 2000 true true livePlayingState
    (by decide) (by decide)

/-- Helper for C7: filtering a list for a key after every entry with that
key has been filtered out yields nothing. -/
theorem filter_eq_nil_of_filter_ne (k : String) :
    ∀ l : List MemoryItem,
      (l.filter (fun m => m.key != k)).filter (fun m => m.key == k) = []
  | [] => rfl
  | m :: t => by
    by_cases h : m.key = k
    · simp [List.filter_cons, h, filter_eq_nil_of_filter_ne k t]
    · simp [List.filter_cons, h, filter_eq_nil_of_filter_ne k t]

/-- C7: after save(key, v1) then save(key, v2) the store holds exactly one
fact for that key and its value is v2; and a save preserves the invariant
that the store holds at most one fact per key. -/
theorem memory_last_write_wins (st : MemoryStore) (k v1 v2 : String) (t1 t2 : Nat) :
    ((MemoryService.save (some (MemoryService.save st k v1 t1).1) k v2 t2).1.filter
        (fun m => m.key == k)) = [⟨k, v2, t2⟩] ∧
    (distinctKeys (MemoryService.load st) →
      distinctKeys (MemoryService.save st k v1 t1).1) := by
  constructor
  · simp [MemoryService.save, MemoryService.load, List.filter_append,
          filter_eq_nil_of_filter_ne]
  · intro h
    unfold MemoryService.save distinctKeys
    rw [List.pairwise_append]
    refine ⟨h.sublist (List.filter_sublist _), List.pairwise_singleton _ _, ?_⟩
    intro a ha b hb
    rw [List.mem_singleton] at hb
    subst hb
    have h2 := (List.mem_filter.mp ha).2
    simpa using h2

/-- Witness for C7 at a concrete store with one unrelated key. -/
theorem memory_last_write_wins_witness :
    ((MemoryService.save (some (MemoryService.save (some [⟨"b", "w", 0⟩]) "a" "v1" 1).1)
        "a" "v2" 2).1.filter (fun m => m.key == "a")) = [⟨"a", "v2", 2⟩] ∧
    distinctKeys (MemoryService.save (some [⟨"b", "w", 0⟩]) "a" "v1" 1).1 :=
  ⟨(memory_last_write_wins (some [⟨"b", "w", 0⟩]) "a" "v1" "v2" 1 2).1,
   (memory_last_write_wins (some [⟨"b", "w", 0⟩]) "a" "v1" "v2" 1 2).2 (by decide)⟩

/-- Helper for C8: when no position of the input matches the token
grammar, the global scan yields no overlays. -/
theorem scanARTokens_eq_nil (nowMs : Nat) :
    ∀ (fuel : Nat) (cs : List Char),
      (∀ i, matchAt nowMs (cs.drop i) = none) → scanARTokens nowMs fuel cs = []
  | 0, _, _ => rfl
  | _ + 1, [], _ => rfl
  | fuel + 1, c :: cs, h => by
    have h0 : matchAt nowMs (c :: cs) = none := h 0
    have ht : ∀ i, matchAt nowMs (cs.drop i) = none := fun i => by
      have h1 := h (i + 1)
      simpa [List.drop_succ_cons] using h1
    simp [scanARTokens, h0, scanARTokens_eq_nil nowMs fuel cs ht]

/-- C8: the detection-token scanner yields exactly one overlay, with label
cup and box (10,20,30,40), on the documented fragment, and yields zero
overlays on any fragment in which no position matches the token grammar. -/
theorem parse_ar_objects_spec (nowMs : Nat) (text : String) :
    parseARObjects 777 "Hello [OBJECT:cup:10,20,30,40] world" =
      [⟨"cup", (10, 20, 30, 40), "#22d3ee", 777⟩] ∧
    ((∀ i ≤ text.data.length, matchAt nowMs (text.data.drop i) = none) →
      parseARObjects nowMs text = []) := by
  constructor
  · decide
  · intro h
    unfold parseARObjects
    refine scanARTokens_eq_nil nowMs _ _ (fun i => ?_)
    by_cases hi : i ≤ text.data.length
    · exact h i hi
    · have hd : text.data.drop i = [] := List.drop_eq_nil_of_le (by omega)
      rw [hd]
      rfl

/-- Witness for C8 on a concrete fragment with no match. -/
theorem parse_ar_objects_spec_witness :
    parseARObjects 5 "Hello world" = [] :=
  (parse_ar_objects_spec 5 "Hello world").2 (by decide)

/-- C9 evaluated at the failing input: two connection attempts initiated
in the same millisecond receive the identical attempt id (Date.now), so
after the newer attempt B the id of the older attempt A still equals the
current id and a callback of A, here onclose, passes the staleness guard
and mutates the session state. -/
theorem attempt_id_collision :
    mintAttemptId 1700000000000 = attemptAfterB.connectionAttemptId ∧
    onclose (mintAttemptId 1700000000000) attemptAfterB ≠ attemptAfterB := by
  decide

/-- C10: a save removes any prior entry for the key, appends the
replacement at the end with the fresh creation time and returns it, and
leaves the entries of other keys in their relative order; consequently the
load order, and hence the bullet order of the rendered context string, is
the order of the most recent save of each key, as the concrete resave run
shows. -/
theorem memory_resave_moves_to_end (st : MemoryStore) (k v : String) (t : Nat) :
    (MemoryService.save st k v t).1.getLast? = some ⟨k, v, t⟩ ∧
    (MemoryService.save st k v t).2 = ⟨k, v, t⟩ ∧
    (MemoryService.save st k v t).1.filter (fun m => m.key != k) =
      (MemoryService.load st).filter (fun m => m.key != k) ∧
    resaveExample.map (fun m => m.key) = ["b", "a"] ∧
    MemoryService.getContextString (some resaveExample) =
      "- [记忆-b]: vb\n- [记忆-a]: va2" := by
  refine ⟨?_, rfl, ?_, by decide, by decide⟩
  · simp [MemoryService.save]
  · simp [MemoryService.save, List.filter_append, List.filter_filter]
